import Mathlib

/-!
Verification of the web_analyzer core against its specification.

The Go sources are shallowly embedded: pure extraction functions become Lean
functions over explicit document/URL structures, the service layer's
interaction with its two repositories becomes explicit state passing with a
call log, and the bounded-concurrency link checker becomes a small-step
transition system.  Library behaviour (net/url, goquery selection, the regexp
subset actually used) is modelled by executable Lean functions restricted to
the feature subset that the code exercises (no percent-escaping, no userinfo
validation, no IPv6 literals).
-/

namespace WebAnalyzer

/-! ## Domain model (internal/domain) -/

inductive AnalysisStatus
  | requested
  | inProgress
  | completed
  | failed
deriving DecidableEq, Repr

inductive HTMLVersion
  | html5
  | html401
  | xhtml10
  | xhtml11
  | unknown
deriving DecidableEq, Repr

inductive LinkType
  | internal
  | external
deriving DecidableEq, Repr

structure Link where
  url : String
  linkType : LinkType
deriving DecidableEq, Repr

structure InaccessibleLink where
  url : String
  statusCode : Nat
  error : String
deriving DecidableEq, Repr

structure LoginForm where
  method : String
  action : String
  fields : List String
deriving DecidableEq, Repr

structure FormAnalysis where
  totalCount : Nat
  loginFormsDetected : Nat
  loginFormDetails : List LoginForm
deriving DecidableEq, Repr

/-! ## Model of Go net/url

Only the slice of `net/url` that `web_fetcher.go` and `html_analyzer.go`
exercise is modelled: scheme extraction, authority/host splitting, query and
fragment cutting, opaque data, reference resolution and re-serialisation.
Percent-escaping, userinfo and host validation are out of the model.
-/

structure URL where
  scheme : String
  opq : String
  host : String
  path : String
  query : String
  fragment : String
deriving DecidableEq, Repr

def emptyURL : URL := ⟨"", "", "", "", "", ""⟩

/-! ### Character-list string primitives

Computable stand-ins for the Go strings helpers (ToLower, ToUpper,
TrimSpace, HasPrefix, HasSuffix, Contains), written by structural recursion
over the character list so that concrete instances evaluate inside the
kernel. -/

/-- Head-anchored case-sensitive list match. -/
def leadMatch : List Char → List Char → Bool
  | [], _ => true
  | _ :: _, [] => false
  | a :: as, b :: bs => a = b && leadMatch as bs

/-- Naive substring search over character lists. -/
def listSearch (needle : List Char) : List Char → Bool
  | [] => leadMatch needle []
  | c :: cs => leadMatch needle (c :: cs) || listSearch needle cs

/-- Model of strings.ToLower (ASCII). -/
def strToLower (s : String) : String :=
  (s.toList.map Char.toLower).asString

/-- Model of strings.ToUpper (ASCII). -/
def strToUpper (s : String) : String :=
  (s.toList.map Char.toUpper).asString

/-- Model of strings.TrimSpace (ASCII whitespace). -/
def strTrim (s : String) : String :=
  (((s.toList.dropWhile Char.isWhitespace).reverse.dropWhile Char.isWhitespace).reverse).asString

/-- Model of strings.HasPrefix. -/
def strStartsWith (s pre : String) : Bool :=
  leadMatch pre.toList s.toList

/-- Model of strings.HasSuffix. -/
def strEndsWith (s suf : String) : Bool :=
  leadMatch suf.toList.reverse s.toList.reverse

/-- Model of strings.Contains. -/
def strContainsSub (hay needle : String) : Bool :=
  listSearch needle.toList hay.toList

/-- Result of Go getScheme scanning: a parse error, no scheme present, or a
scheme of the given character length. -/
inductive SchemeScan
  | err
  | noScheme
  | found (n : Nat)
deriving DecidableEq, Repr

/-- Model of the scanning loop of net/url getScheme.  `first` is true while
looking at the first character. -/
def findScheme (first : Bool) : List Char → SchemeScan
  | [] => .noScheme
  | c :: rest =>
    if c.isAlpha then
      match findScheme false rest with
      | .found n => .found (n + 1)
      | r => r
    else if c.isDigit || c = '+' || c = '-' || c = '.' then
      if first then .noScheme
      else
        match findScheme false rest with
        | .found n => .found (n + 1)
        | r => r
    else if c = ':' then
      if first then .err else .found 0
    else .noScheme

/-- Split at the first occurrence of `c`, the separator removed (model of
strings.Cut). When `c` does not occur the second component is empty. -/
def cutList (c : Char) : List Char → List Char × List Char
  | [] => ([], [])
  | x :: rest =>
    if x = c then ([], rest)
    else
      let (b, a) := cutList c rest
      (x :: b, a)

/-- Split at the first occurrence of `c`, keeping the separator at the head of
the second component (net/url keeps the leading slash of the path when
splitting authority from path). -/
def cutListKeep (c : Char) : List Char → List Char × List Char
  | [] => ([], [])
  | x :: rest =>
    if x = c then ([], x :: rest)
    else
      let (b, a) := cutListKeep c rest
      (x :: b, a)

/-- Keep everything after the last occurrence of `c`; the whole list when `c`
is absent (net/url takes the host to be the part of the authority after the
last at sign). -/
def afterLast (c : Char) (s : List Char) : List Char :=
  ((cutList c s.reverse).1).reverse

/-- Model of net/url Parse restricted to the inputs the analyzer meets:
fragment is cut first, then the scheme is scanned (lower-cased on success),
the query is cut at the first question mark, and the remainder is classified
as opaque data, an authority plus path, or a bare path. -/
def urlParse (rawURL : String) : Except String URL :=
  let s := rawURL.toList
  let (beforeFrag, frag) := cutList '#' s
  match findScheme true beforeFrag with
  | .err => .error "missing protocol scheme"
  | scan =>
    let (scheme, rest) :=
      match scan with
      | .found n => ((beforeFrag.take n).map Char.toLower, beforeFrag.drop (n + 1))
      | _ => ([], beforeFrag)
    let (rest, query) := cutList '?' rest
    if scheme ≠ [] ∧ ¬ rest.take 1 = ['/'] then
      .ok { scheme := scheme.asString, opq := rest.asString, host := "", path := "",
            query := query.asString, fragment := frag.asString }
    else if scheme = [] ∧ (cutList '/' rest).1.contains ':' then
      .error "first path segment in URL cannot contain colon"
    else if rest.take 2 = ['/', '/'] then
      let after := rest.drop 2
      let (auth, path) := cutListKeep '/' after
      .ok { scheme := scheme.asString, opq := "", host := (afterLast '@' auth).asString,
            path := path.asString, query := query.asString, fragment := frag.asString }
    else
      .ok { scheme := scheme.asString, opq := "", host := "", path := rest.asString,
            query := query.asString, fragment := frag.asString }

/-- Model of the merge step of net/url resolvePath: empty reference keeps the
base, an absolute reference replaces it, a relative reference is appended to
the base truncated after its last slash. -/
def mergeFull (base ref : List Char) : List Char :=
  if ref = [] then base
  else if ref.take 1 = ['/'] then ref
  else (base.reverse.dropWhile (· ≠ '/')).reverse ++ ref

/-- Split on the slash character, preserving empty segments. -/
def splitSlash : List Char → List (List Char)
  | [] => [[]]
  | c :: rest =>
    let r := splitSlash rest
    if c = '/' then [] :: r
    else
      match r with
      | h :: t => (c :: h) :: t
      | [] => [[c]]

/-- Dot-segment removal over path segments (the loop body of net/url
resolvePath): single dots are dropped, double dots pop the last output
segment, everything else is appended. -/
def processSegs (segs : List (List Char)) : List (List Char) :=
  segs.foldl
    (fun out seg =>
      if seg = ['.'] then out
      else if seg = ['.', '.'] then out.dropLast
      else out ++ [seg])
    []

/-- Model of net/url resolvePath: merge the reference into the base, remove
dot segments, force a leading slash, and keep a trailing slash when the last
input segment was a dot segment. -/
def resolvePath (base ref : String) : String :=
  let full := mergeFull base.toList ref.toList
  if full = [] then ""
  else
    let rawSegs := splitSlash full
    let segs :=
      match rawSegs with
      | [] :: rest => rest
      | l => l
    let out := List.intercalate ['/'] (processSegs segs)
    let trailingDot := rawSegs.getLast? = some ['.'] ∨ rawSegs.getLast? = some ['.', '.']
    let r := '/' :: out
    let r := if trailingDot ∧ ¬ r.getLast? = some '/' then r ++ ['/'] else r
    r.asString

/-- Model of (*net/url.URL).ResolveReference for URLs without userinfo. -/
def resolveReference (u ref : URL) : URL :=
  if ref.scheme ≠ "" ∨ ref.host ≠ "" then
    { scheme := if ref.scheme = "" then u.scheme else ref.scheme,
      opq := ref.opq, host := ref.host,
      path := resolvePath ref.path "",
      query := ref.query, fragment := ref.fragment }
  else if ref.opq ≠ "" then
    { scheme := u.scheme, opq := ref.opq, host := "", path := "",
      query := ref.query, fragment := ref.fragment }
  else
    let keepBase := ref.path = "" ∧ ref.query = ""
    { scheme := u.scheme, opq := "", host := u.host,
      path := resolvePath u.path ref.path,
      query := if keepBase then u.query else ref.query,
      fragment := if keepBase ∧ ref.fragment = "" then u.fragment else ref.fragment }

/-- Model of (*net/url.URL).String for URLs without userinfo or escaping. -/
def URL.toString (u : URL) : String :=
  (if u.scheme ≠ "" then u.scheme ++ ":" else "")
    ++ (if u.opq ≠ "" then u.opq
        else
          (if (u.scheme ≠ "" ∨ u.host ≠ "") ∧ (u.host ≠ "" ∨ u.path ≠ "") then
            "//" ++ u.host
           else "")
            ++ (if u.path ≠ "" ∧ ¬ strStartsWith u.path "/" ∧ u.host ≠ "" then "/" else "")
            ++ u.path)
    ++ (if u.query ≠ "" then "?" ++ u.query else "")
    ++ (if u.fragment ≠ "" then "#" ++ u.fragment else "")

/-! ## Fetcher URL validation (internal/adapters/web_fetcher.go) -/

/-- The literal private host list of isPrivateOrLocalURL. -/
def privateHosts : List String := ["localhost", "127.0.0.1", "::1", "0.0.0.0"]

/-- The literal private range chain of isPrivateOrLocalURL, one entry per
HasPrefix disjunct in the source. -/
def privateRanges : List String :=
  ["10.", "172.16.", "172.17.", "172.18.", "172.19.", "172.20.", "172.21.",
   "172.22.", "172.23.", "172.24.", "172.25.", "172.26.", "172.27.", "172.28.",
   "172.29.", "172.30.", "172.31.", "192.168."]

/-- Embedding of isPrivateOrLocalURL from web_fetcher.go. -/
def isPrivateOrLocalURL (host : String) : Bool :=
  let hostLower := strToLower host
  privateHosts.any (fun ph => hostLower = ph || strEndsWith hostLower ("." ++ ph))
    || privateRanges.any (fun r => strStartsWith hostLower r)

/-- Embedding of validateURL from web_fetcher.go; errors carry the source's
message text. -/
def validateURL (targetURL : String) : Except String Unit :=
  if targetURL = "" then .error "URL cannot be empty"
  else
    match urlParse targetURL with
    | .error e => .error ("invalid URL format: " ++ e)
    | .ok parsedURL =>
      if parsedURL.scheme = "" then
        .error "URL must include a scheme (http or https)"
      else if parsedURL.scheme ≠ "http" ∧ parsedURL.scheme ≠ "https" then
        .error ("URL scheme must be http or https, got: " ++ parsedURL.scheme)
      else if parsedURL.host = "" then
        .error "URL must include a host"
      else if isPrivateOrLocalURL parsedURL.host then
        .error "access to private or local networks is not allowed"
      else
        .ok ()

/-! ## Model of the regexp subset used by ExtractHTMLVersion

Every pattern in ExtractHTMLVersion is a case-insensitive alternation-free
sequence of literal runs separated by whitespace classes, matched anywhere in
the subject (regexp MatchString is unanchored search).  Such a pattern is a
token list; since every literal in the source patterns begins with a
non-whitespace character, greedy whitespace consumption is exact. -/

inductive RTok
  | lit (s : String)
  | wsPlus
  | wsStar
deriving DecidableEq, Repr

/-- The character class matched by Go regexp backslash-s: [\t\n\f\r ]. -/
def isGoSpace (c : Char) : Bool :=
  c = '\t' || c = '\n' || c = '\x0c' || c = '\r' || c = ' '

/-- Case-insensitive literal match at the head of the subject, returning the
remainder on success. -/
def matchLit : List Char → List Char → Option (List Char)
  | [], s => some s
  | _ :: _, [] => none
  | p :: ps, c :: cs => if p.toLower = c.toLower then matchLit ps cs else none

/-- Match a token sequence at the head of the subject. -/
def matchToks : List RTok → List Char → Bool
  | [], _ => true
  | .lit l :: ts, s =>
    match matchLit l.toList s with
    | some rest => matchToks ts rest
    | none => false
  | .wsPlus :: ts, s =>
    match s with
    | [] => false
    | c :: cs => isGoSpace c && matchToks ts (cs.dropWhile isGoSpace)
  | .wsStar :: ts, s => matchToks ts (s.dropWhile isGoSpace)

/-- Unanchored search: match the token sequence at some start position. -/
def searchToks (toks : List RTok) : List Char → Bool
  | [] => matchToks toks []
  | c :: cs => matchToks toks (c :: cs) || searchToks toks cs

/-- Model of regexp MatchString for the doctype patterns. -/
def regexpMatch (toks : List RTok) (s : String) : Bool :=
  searchToks toks s.toList

/-- Token form of the HTML5 doctype pattern of ExtractHTMLVersion. -/
def html5Toks : List RTok :=
  [.lit "<!DOCTYPE", .wsPlus, .lit "html", .wsStar, .lit ">"]

/-- Shared public-doctype opening shared by all non-HTML5 patterns. -/
def doctypePublicToks : List RTok :=
  [.lit "<!DOCTYPE", .wsPlus, .lit "html", .wsPlus, .lit "PUBLIC", .wsPlus,
   .lit "\"-//W3C//DTD", .wsPlus]

/-- Token forms of the three HTML 4.01 patterns, in source order. -/
def html401Patterns : List (List RTok) :=
  [doctypePublicToks ++ [.lit "HTML", .wsPlus, .lit "4.01//EN\""],
   doctypePublicToks ++ [.lit "HTML", .wsPlus, .lit "4.01", .wsPlus, .lit "Transitional//EN\""],
   doctypePublicToks ++ [.lit "HTML", .wsPlus, .lit "4.01", .wsPlus, .lit "Frameset//EN\""]]

/-- Token forms of the three XHTML 1.0 patterns, in source order. -/
def xhtml10Patterns : List (List RTok) :=
  [doctypePublicToks ++ [.lit "XHTML", .wsPlus, .lit "1.0", .wsPlus, .lit "Strict//EN\""],
   doctypePublicToks ++ [.lit "XHTML", .wsPlus, .lit "1.0", .wsPlus, .lit "Transitional//EN\""],
   doctypePublicToks ++ [.lit "XHTML", .wsPlus, .lit "1.0", .wsPlus, .lit "Frameset//EN\""]]

/-- Token form of the XHTML 1.1 pattern. -/
def xhtml11Toks : List RTok :=
  doctypePublicToks ++ [.lit "XHTML", .wsPlus, .lit "1.1//EN\""]

/-- Token form of the XML declaration pattern. -/
def xmlDeclToks : List RTok :=
  [.lit "<?xml", .wsPlus, .lit "version"]

/-- Embedding of ExtractHTMLVersion from html_analyzer.go: trim, then try the
pattern groups in source order, falling back to the XML declaration check and
finally Unknown. -/
def ExtractHTMLVersion (html : String) : HTMLVersion :=
  let html := strTrim html
  if regexpMatch html5Toks html then .html5
  else if html401Patterns.any (fun pat => regexpMatch pat html) then .html401
  else if xhtml10Patterns.any (fun pat => regexpMatch pat html) then .xhtml10
  else if regexpMatch xhtml11Toks html then .xhtml11
  else if regexpMatch xmlDeclToks html then .xhtml10
  else .unknown

/-! ## Model of parsed HTML documents and goquery selection

A goquery document is modelled as a forest of nodes; `Find` with the
selectors the analyzer uses (tag name, attribute presence, attribute value)
becomes a filter over all nodes of the forest in depth-first order, which is
goquery's matching order. -/

inductive Node
  | elem (tag : String) (attrs : List (String × String)) (children : List Node)
  | text (s : String)
deriving Repr

mutual

/-- All nodes of a subtree, depth-first, the root included. -/
def Node.allNodes : Node → List Node
  | .text s => [.text s]
  | .elem t a cs => .elem t a cs :: allNodesList cs

/-- All nodes of a forest, depth-first. -/
def allNodesList : List Node → List Node
  | [] => []
  | n :: ns => n.allNodes ++ allNodesList ns

end

/-- Tag of a node; text nodes have none. -/
def Node.tag : Node → String
  | .text _ => ""
  | .elem t _ _ => t

/-- First attribute with the given key (goquery Attr). -/
def Node.attr (n : Node) (name : String) : Option String :=
  match n with
  | .text _ => none
  | .elem _ attrs _ => (attrs.find? (fun kv => kv.1 = name)).map (fun kv => kv.2)

/-- Model of goquery AttrOr. -/
def Node.attrOr (n : Node) (name dflt : String) : String :=
  (n.attr name).getD dflt

/-- Proper descendants of a node (the selection set of goquery Find on a
single-element selection). -/
def Node.descendants : Node → List Node
  | .text _ => []
  | .elem _ _ cs => allNodesList cs

mutual

/-- Concatenated text content of a subtree (goquery Text). -/
def Node.textContent : Node → String
  | .text s => s
  | .elem _ _ cs => textContentList cs

/-- Concatenated text content of a forest. -/
def textContentList : List Node → String
  | [] => ""
  | n :: ns => n.textContent ++ textContentList ns

end

/-! ## HTMLParser link and form extraction (internal/adapters/html_analyzer.go) -/

/-- One step of the ExtractLinks Each callback, threading the seen set and
the accumulated links. -/
def extractLinkStep (baseURLParsed : URL) (st : List String × List Link) (n : Node) :
    List String × List Link :=
  match n.attr "href" with
  | none => st
  | some href =>
    if href = "" then st
    else
      match urlParse href with
      | .error _ => st
      | .ok parsedURL =>
        let resolvedURL := resolveReference baseURLParsed parsedURL
        let finalURL := resolvedURL.toString
        if st.1.contains finalURL then st
        else
          let seen := st.1 ++ [finalURL]
          if finalURL = "" ∨ strStartsWith href "#" ∨ strStartsWith href "javascript:"
              ∨ strStartsWith href "mailto:" ∨ strStartsWith href "tel:" then
            (seen, st.2)
          else
            let linkType :=
              if resolvedURL.host = baseURLParsed.host then LinkType.internal
              else LinkType.external
            (seen, st.2 ++ [{ url := finalURL, linkType := linkType }])

/-- Embedding of ExtractLinks from html_analyzer.go.  The source selects the
nodes with doc.Find on the selector string consisting of the letter p, then
an opening bracket, href, and a closing bracket — that is, paragraph elements
carrying an href attribute — and folds the callback over them. -/
def ExtractLinks (doc : List Node) (baseURL : String) : Except String (List Link) :=
  match urlParse baseURL with
  | .error e => .error e
  | .ok baseURLParsed =>
    let selected :=
      (allNodesList doc).filter (fun n => n.tag = "p" && (n.attr "href").isSome)
    .ok (selected.foldl (extractLinkStep baseURLParsed) ([], [])).2

/-- The username-like field names of isLikelyLoginForm, in source order. -/
def usernameFieldNames : List String :=
  ["username", "user", "email", "login", "userid", "user_name", "user_email", "account"]

/-- The password-like field names of isLikelyLoginForm, in source order. -/
def passwordFieldNames : List String :=
  ["password", "passwd", "pwd", "pass", "user_password", "userpassword"]

/-- The login-indicative phrases of isLikelyLoginForm, in source order. -/
def loginTextPhrases : List String :=
  ["login", "sign in", "log in", "signin", "authenticate"]

/-- Embedding of isLikelyLoginForm from html_analyzer.go. -/
def isLikelyLoginForm (fields : List String) (formSelection : Node) : Bool :=
  let fieldMap := fields.map strToLower
  let hasUsernameField := usernameFieldNames.any (fun f => fieldMap.contains f)
  let hasPasswordField := passwordFieldNames.any (fun f => fieldMap.contains f)
  let hasPasswordInput :=
    formSelection.descendants.any
      (fun n => n.tag = "input" && n.attr "type" = some "password")
  let formText := strToLower formSelection.textContent
  let hasLoginText := loginTextPhrases.any (fun t => strContainsSub formText t)
  let hasLoginClass :=
    formSelection.descendants.any (fun n =>
      let cls := strToLower (n.attrOr "class" "")
      let idv := strToLower (n.attrOr "id" "")
      strContainsSub cls "login" || strContainsSub cls "signin"
        || strContainsSub idv "login" || strContainsSub idv "signin")
  (hasUsernameField && hasPasswordField) || hasPasswordInput
    || (hasLoginText && (hasUsernameField || hasPasswordField)) || hasLoginClass

/-- De-duplicated field-name collection of the ExtractForms callback. -/
def collectFields (formNode : Node) : List String :=
  (formNode.descendants.filter
      (fun n => n.tag = "input" || n.tag = "select" || n.tag = "textarea")).foldl
    (fun acc n =>
      let name := n.attrOr "name" ""
      if name ≠ "" ∧ ¬ acc.contains name then acc ++ [name] else acc)
    []

/-- Method normalisation of the ExtractForms callback: upper-cased, trimmed,
anything other than POST or GET becomes GET. -/
def normalizeMethod (raw : String) : String :=
  let method := strToUpper (strTrim raw)
  if method ≠ "POST" ∧ method ≠ "GET" then "GET" else method

/-- Action resolution of the ExtractForms callback: empty actions are kept,
parse failures keep the raw action, otherwise the action is resolved against
the base URL. -/
def resolveAction (baseURLParsed : URL) (action : String) : String :=
  if action = "" then action
  else
    match urlParse action with
    | .error _ => action
    | .ok parsedAction => (resolveReference baseURLParsed parsedAction).toString

/-- Embedding of ExtractForms from html_analyzer.go. -/
def ExtractForms (doc : List Node) (baseURL : String) : FormAnalysis :=
  match urlParse baseURL with
  | .error _ => ⟨0, 0, []⟩
  | .ok baseURLParsed =>
    let formNodes := (allNodesList doc).filter (fun n => n.tag = "form")
    let totalForms := formNodes.length
    let loginForms :=
      formNodes.foldl
        (fun acc formNode =>
          let method := normalizeMethod (formNode.attrOr "method" "GET")
          let action := resolveAction baseURLParsed (formNode.attrOr "action" "")
          let fields := collectFields formNode
          if isLikelyLoginForm fields formNode then
            acc ++ [{ method := method, action := action, fields := fields }]
          else acc)
        []
    ⟨totalForms, loginForms.length, loginForms⟩

/-! ## Fetcher response handling (internal/adapters/web_fetcher.go) -/

/-- Typed domain error (internal/domain/errors.go DomainError), restricted to
the fields the claims inspect. -/
structure DomainError where
  code : String
  message : String
  statusCode : Nat
deriving DecidableEq, Repr

/-- Embedding of NewURLNotReachableError from internal/domain/errors.go. -/
def NewURLNotReachableError (url : String) (statusCode : Nat) : DomainError :=
  { code := "URL_NOT_REACHABLE",
    message := "URL " ++ url ++ " is not reachable",
    statusCode := statusCode }

/-- The observable part of a resty response to the page GET. -/
structure HTTPFetchResponse where
  statusCode : Nat
  body : String
  contentType : String
  finalURL : String
deriving DecidableEq, Repr

structure WebPageContent where
  url : String
  statusCode : Nat
  html : String
  contentType : String
deriving DecidableEq, Repr

/-- Embedding of fetchWithRetry from web_fetcher.go, parametrised by the
outcome of the underlying GET (a network-level error or a response): a
network error yields URLNotReachable with status zero, a non-2xx status
yields URLNotReachable with the observed status, an oversized body yields
RESPONSE_TOO_LARGE, everything else yields the page content. -/
def fetchWithRetry (maxResponseSizeBytes : Nat) (targetURL : String)
    (getOutcome : Except String HTTPFetchResponse) :
    Except DomainError WebPageContent :=
  match getOutcome with
  | .error _ => .error (NewURLNotReachableError targetURL 0)
  | .ok resp =>
    if resp.statusCode < 200 ∨ resp.statusCode ≥ 300 then
      .error (NewURLNotReachableError targetURL resp.statusCode)
    else if resp.body.length > maxResponseSizeBytes then
      .error { code := "RESPONSE_TOO_LARGE",
               message := "Response size " ++ toString resp.body.length
                 ++ " bytes exceeds maximum allowed " ++ toString maxResponseSizeBytes
                 ++ " bytes",
               statusCode := 413 }
    else
      .ok { url := resp.finalURL, statusCode := resp.statusCode,
            html := resp.body, contentType := resp.contentType }

/-! ## LinkChecker single-link probe (internal/adapters/html_analyzer.go,
LinkChecker part) -/

structure LinkCheckResult where
  statusCode : Nat
  error : String
deriving DecidableEq, Repr

/-- The observable part of a resty response to a probe request. -/
structure ProbeResponse where
  statusCode : Nat
  statusText : String
deriving DecidableEq, Repr

/-- Embedding of performLinkCheck: HEAD first, on HEAD failure fall back to
GET; a response with status at least 400 records the status text. -/
def performLinkCheck (headOutcome getOutcome : Except String ProbeResponse) :
    Except String LinkCheckResult :=
  let toResult := fun (resp : ProbeResponse) =>
    LinkCheckResult.mk resp.statusCode (if resp.statusCode ≥ 400 then resp.statusText else "")
  match headOutcome with
  | .ok resp => .ok (toResult resp)
  | .error _ =>
    match getOutcome with
    | .error e => .error e
    | .ok resp => .ok (toResult resp)

/-- Outcome of circuitBreaker.Execute: a value, the distinguished open-state
error, or the wrapped call's own error. -/
inductive CBResult (α : Type)
  | ok (a : α)
  | errOpenState
  | err (msg : String)
deriving DecidableEq, Repr

/-- Model of gobreaker Execute: an open breaker short-circuits with
ErrOpenState, otherwise the wrapped call runs and its result is passed
through. -/
def cbExecute (breakerOpen : Bool) (call : Except String α) : CBResult α :=
  if breakerOpen then .errOpenState
  else
    match call with
    | .ok a => .ok a
    | .error e => .err e

/-- Embedding of checkSingleLink, parametrised by breaker state and the two
probe outcomes. -/
def checkSingleLink (link : Link) (breakerOpen : Bool)
    (headOutcome getOutcome : Except String ProbeResponse) :
    Option InaccessibleLink :=
  match cbExecute breakerOpen (performLinkCheck headOutcome getOutcome) with
  | .errOpenState =>
    some { url := link.url, statusCode := 503,
           error := "Service temporarily unavailable (circuit breaker open)" }
  | .err msg => some { url := link.url, statusCode := 0, error := msg }
  | .ok checkResult =>
    if checkResult.statusCode ≥ 400 then
      some { url := link.url, statusCode := checkResult.statusCode,
             error := checkResult.error }
    else none

/-! ## Application service (internal/service/application_service.go)

The two repositories are modelled by the outcomes of their operations; each
service function additionally returns the ordered list of repository calls it
performed, so that call-count claims are statable. -/

inductive RepoCall
  | cacheFind
  | cacheSet
  | storeFind
  | storeSave
deriving DecidableEq, Repr

structure Analysis where
  id : String
  url : String
  status : AnalysisStatus
deriving DecidableEq, Repr

/-- Embedding of the durable Save (PostgresRepository.Save): on DB success a
fresh record with the requested status is returned, on DB failure the error
is wrapped. -/
def postgresSave (newId : String) (dbErr : Option String) (url : String) :
    Except String Analysis :=
  match dbErr with
  | some e => .error ("failed to save analysis: " ++ e)
  | none => .ok { id := newId, url := url, status := .requested }

/-- Embedding of analysisService.StartAnalysis: durable save first; its error
returns immediately; a cache-set failure is only logged. -/
def StartAnalysis (saveOutcome : Except String Analysis)
    (cacheSetOutcome : Except String Unit) :
    Except String Analysis × List RepoCall :=
  match saveOutcome with
  | .error e => (.error e, [.storeSave])
  | .ok analysis =>
    match cacheSetOutcome with
    | _ => (.ok analysis, [.storeSave, .cacheSet])

/-- Embedding of analysisService.FetchAnalysis: cache first; on any cache
error fall through to the durable store, wrapping its error; on a durable hit
repopulate the cache (outcome ignored). -/
def FetchAnalysis (cacheFindOutcome storeFindOutcome : Except String Analysis)
    (cacheSetOutcome : Except String Unit) :
    Except String Analysis × List RepoCall :=
  match cacheFindOutcome with
  | .ok analysis => (.ok analysis, [.cacheFind])
  | .error _ =>
    match storeFindOutcome with
    | .error e => (.error ("failed to find analysis: " ++ e), [.cacheFind, .storeFind])
    | .ok analysis =>
      match cacheSetOutcome with
      | _ => (.ok analysis, [.cacheFind, .storeFind, .cacheSet])

/-- Event type constants of internal/domain (part of the events model). -/
def EventTypeStarted : String := "analysis_started"

def EventTypeProgress : String := "analysis_progress"

def EventTypeCompleted : String := "analysis_completed"

def EventTypeFailed : String := "analysis_failed"

structure AnalysisEvent where
  eventType : String
  data : Analysis
  eventID : String
deriving DecidableEq, Repr

/-- The status switch of FetchAnalysisEvents. -/
def eventForStatus (analysis : Analysis) : List AnalysisEvent :=
  match analysis.status with
  | .requested => [{ eventType := EventTypeStarted, data := analysis, eventID := analysis.id }]
  | .inProgress => [{ eventType := EventTypeProgress, data := analysis, eventID := analysis.id }]
  | .completed => [{ eventType := EventTypeCompleted, data := analysis, eventID := analysis.id }]
  | .failed => [{ eventType := EventTypeFailed, data := analysis, eventID := analysis.id }]

/-- Embedding of analysisService.FetchAnalysisEvents: the call itself always
returns a nil error; the goroutine emits the events of `eventForStatus` when
the lookup succeeds and closes the channel silently when it fails.  The first
component is the returned error, the second the full sequence sent on the
channel before it is closed. -/
def FetchAnalysisEvents (cacheFindOutcome storeFindOutcome : Except String Analysis)
    (cacheSetOutcome : Except String Unit) :
    Option String × List AnalysisEvent :=
  (none,
    match (FetchAnalysis cacheFindOutcome storeFindOutcome cacheSetOutcome).1 with
    | .error _ => []
    | .ok analysis => eventForStatus analysis)

/-! ## Bounded-concurrency link probing (checkLinksWithConcurrency)

The fan-out is modelled as a transition system.  Each spawned goroutine is a
worker that first acquires one of `cap` slots (the buffered semaphore
channel), then runs its probe — whose outcome is the worker's entry of
`inputs`, none when the probe yields no inaccessible link — appends the
outcome to the mutex-guarded collection, releases its slot and signals the
wait group.  The parent's wg.Wait is the `ret` transition, enabled only once
every worker is done. -/

inductive WorkerState
  | waiting
  | probing
  | done
deriving DecidableEq, Repr

structure CheckerState (n : Nat) where
  ws : Fin n → WorkerState
  results : List InaccessibleLink
  returned : Bool

/-- Initial state: all goroutines spawned, none holding a slot. -/
def initState (n : Nat) : CheckerState n :=
  { ws := fun _ => .waiting, results := [], returned := false }

/-- Number of probes currently in flight, i.e. workers holding a slot. -/
def inFlight {n : Nat} (s : CheckerState n) : Nat :=
  (Finset.univ.filter (fun i => s.ws i = .probing)).card

/-- One interleaving step of checkLinksWithConcurrency. -/
inductive CStep (cap : Nat) (inputs : Fin n → Option InaccessibleLink) :
    CheckerState n → CheckerState n → Prop
  | acquire (s : CheckerState n) (i : Fin n) :
      s.ws i = .waiting → inFlight s < cap →
      CStep cap inputs s { s with ws := Function.update s.ws i .probing }
  | finish (s : CheckerState n) (i : Fin n) :
      s.ws i = .probing →
      CStep cap inputs s
        { s with ws := Function.update s.ws i .done,
                 results := s.results ++ (inputs i).toList }
  | ret (s : CheckerState n) :
      (∀ i, s.ws i = .done) → s.returned = false →
      CStep cap inputs s { s with returned := true }

/-- Reachability from the spawn point. -/
inductive CReachable (cap : Nat) (inputs : Fin n → Option InaccessibleLink) :
    CheckerState n → Prop
  | init : CReachable cap inputs (initState n)
  | step {s t : CheckerState n} :
      CReachable cap inputs s → CStep cap inputs s t → CReachable cap inputs t

/-! ## Claim theorems -/

/-- C3: FetchAnalysis is cache-aside — a cache hit returns the cached record
without touching the durable store; any cache miss or error leads to exactly
one DurableStore.Find; a successful durable read triggers exactly one
Cache.Set (whose failure is ignored: the result does not depend on the set
outcome) and returns the record; a durable read error propagates as the
result. -/
theorem claim_C3_fetchAnalysis_cache_aside
    (cacheFindOutcome storeFindOutcome : Except String Analysis)
    (cacheSetOutcome : Except String Unit) :
    (∀ a, cacheFindOutcome = .ok a →
      FetchAnalysis cacheFindOutcome storeFindOutcome cacheSetOutcome = (.ok a, [.cacheFind]) ∧
      (FetchAnalysis cacheFindOutcome storeFindOutcome cacheSetOutcome).2.count .storeFind = 0) ∧
    (∀ e, cacheFindOutcome = .error e →
      (FetchAnalysis cacheFindOutcome storeFindOutcome cacheSetOutcome).2.count .storeFind = 1 ∧
      (∀ a, storeFindOutcome = .ok a →
        (FetchAnalysis cacheFindOutcome storeFindOutcome cacheSetOutcome).1 = .ok a ∧
        (FetchAnalysis cacheFindOutcome storeFindOutcome cacheSetOutcome).2.count .cacheSet = 1) ∧
      (∀ d, storeFindOutcome = .error d →
        FetchAnalysis cacheFindOutcome storeFindOutcome cacheSetOutcome =
          (.error ("failed to find analysis: " ++ d), [.cacheFind, .storeFind]))) ∧
    (∀ other : Except String Unit,
      FetchAnalysis cacheFindOutcome storeFindOutcome cacheSetOutcome =
        FetchAnalysis cacheFindOutcome storeFindOutcome other) := by
  refine ⟨?_, ?_, ?_⟩
  · intro a ha
    subst ha
    exact ⟨rfl, by rfl⟩
  · intro e he
    subst he
    cases storeFindOutcome with
    | ok a =>
      refine ⟨?_, ?_, ?_⟩
      · cases cacheSetOutcome <;> rfl
      · intro b hb
        cases hb
        cases cacheSetOutcome <;> exact ⟨rfl, by rfl⟩
      · intro d hd
        cases hd
    | error d =>
      refine ⟨?_, ?_, ?_⟩
      · cases cacheSetOutcome <;> rfl
      · intro b hb
        cases hb
      · intro d hd
        cases hd
        cases cacheSetOutcome <;> rfl
  · intro other
    cases cacheFindOutcome <;> cases storeFindOutcome <;>
      cases cacheSetOutcome <;> cases other <;> rfl

/-- Witness for C3 at a concrete cache miss followed by a durable hit. -/
theorem claim_C3_fetchAnalysis_cache_aside_witness :
    (FetchAnalysis (.error "cache miss") (.ok ⟨"id-1", "https://example.com", .requested⟩)
        (.error "cache down")).2.count .storeFind = 1 :=
  ((claim_C3_fetchAnalysis_cache_aside (.error "cache miss")
      (.ok ⟨"id-1", "https://example.com", .requested⟩) (.error "cache down")).2.1
    "cache miss" rfl).1

/-- C4: StartAnalysis persists through the durable Save first; when the save
succeeds it returns the fresh record with requested status and a nil error
whatever the cache write does; when the save fails the error is returned and
no cache write appears in the call log. -/
theorem claim_C4_startAnalysis_durable_write_authoritative
    (newId url : String) (dbErr : Option String) (cacheSetOutcome : Except String Unit) :
    (dbErr = none →
      StartAnalysis (postgresSave newId dbErr url) cacheSetOutcome =
        (.ok { id := newId, url := url, status := .requested }, [.storeSave, .cacheSet])) ∧
    (∀ e, dbErr = some e →
      StartAnalysis (postgresSave newId dbErr url) cacheSetOutcome =
        (.error ("failed to save analysis: " ++ e), [.storeSave]) ∧
      (StartAnalysis (postgresSave newId dbErr url) cacheSetOutcome).2.count .cacheSet = 0) := by
  constructor
  · intro h
    subst h
    cases cacheSetOutcome <;> rfl
  · intro e he
    subst he
    cases cacheSetOutcome <;> exact ⟨rfl, rfl⟩

/-- Witness for C4 at a concrete failing cache write. -/
theorem claim_C4_startAnalysis_durable_write_authoritative_witness :
    StartAnalysis (postgresSave "id-2" none "https://example.com") (.error "cache down") =
      (.ok { id := "id-2", url := "https://example.com", status := .requested },
       [.storeSave, .cacheSet]) :=
  (claim_C4_startAnalysis_durable_write_authoritative "id-2" "https://example.com" none
      (.error "cache down")).1 rfl

/-- C5: a single-link probe yields an inaccessible-link entry exactly for a
status of at least 400 (carrying that status), an open breaker (synthetic 503
entry), or a network-level error (status 0 with the message); a status below
400 yields no entry. -/
theorem claim_C5_checkSingleLink_entry_conditions
    (link : Link) (breakerOpen : Bool)
    (headOutcome getOutcome : Except String ProbeResponse) :
    (breakerOpen = true →
      checkSingleLink link breakerOpen headOutcome getOutcome =
        some { url := link.url, statusCode := 503,
               error := "Service temporarily unavailable (circuit breaker open)" }) ∧
    (breakerOpen = false →
      (∀ e, performLinkCheck headOutcome getOutcome = .error e →
        checkSingleLink link breakerOpen headOutcome getOutcome =
          some { url := link.url, statusCode := 0, error := e }) ∧
      (∀ r, performLinkCheck headOutcome getOutcome = .ok r →
        (r.statusCode ≥ 400 →
          checkSingleLink link breakerOpen headOutcome getOutcome =
            some { url := link.url, statusCode := r.statusCode, error := r.error }) ∧
        (r.statusCode < 400 →
          checkSingleLink link breakerOpen headOutcome getOutcome = none))) := by
  constructor
  · intro h
    subst h
    rfl
  · intro h
    subst h
    constructor
    · intro e he
      simp [checkSingleLink, cbExecute, he]
    · intro r hr
      constructor
      · intro hge
        simp [checkSingleLink, cbExecute, hr, hge]
      · intro hlt
        simp [checkSingleLink, cbExecute, hr, Nat.not_le_of_lt hlt]

/-- Witness for C5 at a concrete 404 HEAD response. -/
theorem claim_C5_checkSingleLink_entry_conditions_witness :
    checkSingleLink ⟨"https://example.com/x", .external⟩ false
        (.ok ⟨404, "404 Not Found"⟩) (.error "unused") =
      some { url := "https://example.com/x", statusCode := 404, error := "404 Not Found" } :=
  (((claim_C5_checkSingleLink_entry_conditions ⟨"https://example.com/x", .external⟩ false
        (.ok ⟨404, "404 Not Found"⟩) (.error "unused")).2 rfl).2
      ⟨404, "404 Not Found"⟩ rfl).1 (by decide)

/-- C7: a fetched response with a status outside 200-299 makes fetchWithRetry
return the typed URL_NOT_REACHABLE error carrying the observed status and no
page content; a network-level failure yields the same error class with status
zero. -/
theorem claim_C7_fetch_non2xx_url_not_reachable
    (maxResponseSizeBytes : Nat) (targetURL : String)
    (getOutcome : Except String HTTPFetchResponse) :
    (∀ resp, getOutcome = .ok resp → resp.statusCode < 200 ∨ resp.statusCode ≥ 300 →
      fetchWithRetry maxResponseSizeBytes targetURL getOutcome =
        .error (NewURLNotReachableError targetURL resp.statusCode) ∧
      (NewURLNotReachableError targetURL resp.statusCode).code = "URL_NOT_REACHABLE" ∧
      (NewURLNotReachableError targetURL resp.statusCode).statusCode = resp.statusCode) ∧
    (∀ e, getOutcome = .error e →
      fetchWithRetry maxResponseSizeBytes targetURL getOutcome =
        .error (NewURLNotReachableError targetURL 0)) := by
  constructor
  · intro resp hresp hout
    subst hresp
    refine ⟨?_, rfl, rfl⟩
    simp [fetchWithRetry, hout]
  · intro e he
    subst he
    rfl

/-- Witness for C7 at a concrete 503 response. -/
theorem claim_C7_fetch_non2xx_url_not_reachable_witness :
    fetchWithRetry 10485760 "https://example.com"
        (.ok ⟨503, "busy", "text/html", "https://example.com"⟩) =
      .error (NewURLNotReachableError "https://example.com" 503) :=
  ((claim_C7_fetch_non2xx_url_not_reachable 10485760 "https://example.com"
        (.ok ⟨503, "busy", "text/html", "https://example.com"⟩)).1
      ⟨503, "busy", "text/html", "https://example.com"⟩ rfl (by decide)).1

/-- C10: FetchAnalysisEvents always returns a nil error; a failed lookup
closes the channel with no events; a successful lookup emits exactly one
event whose type is the 1:1 image of the status — requested to started,
in-progress to progress, completed to completed, failed to failed — before
the close. -/
theorem claim_C10_fetchAnalysisEvents_snapshot
    (cacheFindOutcome storeFindOutcome : Except String Analysis)
    (cacheSetOutcome : Except String Unit) :
    (FetchAnalysisEvents cacheFindOutcome storeFindOutcome cacheSetOutcome).1 = none ∧
    (∀ e, (FetchAnalysis cacheFindOutcome storeFindOutcome cacheSetOutcome).1 = .error e →
      (FetchAnalysisEvents cacheFindOutcome storeFindOutcome cacheSetOutcome).2 = []) ∧
    (∀ a, (FetchAnalysis cacheFindOutcome storeFindOutcome cacheSetOutcome).1 = .ok a →
      (FetchAnalysisEvents cacheFindOutcome storeFindOutcome cacheSetOutcome).2.length = 1 ∧
      (a.status = .requested →
        (FetchAnalysisEvents cacheFindOutcome storeFindOutcome cacheSetOutcome).2 =
          [{ eventType := EventTypeStarted, data := a, eventID := a.id }]) ∧
      (a.status = .inProgress →
        (FetchAnalysisEvents cacheFindOutcome storeFindOutcome cacheSetOutcome).2 =
          [{ eventType := EventTypeProgress, data := a, eventID := a.id }]) ∧
      (a.status = .completed →
        (FetchAnalysisEvents cacheFindOutcome storeFindOutcome cacheSetOutcome).2 =
          [{ eventType := EventTypeCompleted, data := a, eventID := a.id }]) ∧
      (a.status = .failed →
        (FetchAnalysisEvents cacheFindOutcome storeFindOutcome cacheSetOutcome).2 =
          [{ eventType := EventTypeFailed, data := a, eventID := a.id }])) := by
  refine ⟨rfl, ?_, ?_⟩
  · intro e he
    simp [FetchAnalysisEvents, he]
  · intro a ha
    have hev : (FetchAnalysisEvents cacheFindOutcome storeFindOutcome cacheSetOutcome).2 =
        eventForStatus a := by
      simp [FetchAnalysisEvents, ha]
    refine ⟨?_, ?_, ?_, ?_, ?_⟩
    · rw [hev]
      cases hstat : a.status <;> simp [eventForStatus, hstat]
    · intro hstat
      rw [hev]
      simp [eventForStatus, hstat]
    · intro hstat
      rw [hev]
      simp [eventForStatus, hstat]
    · intro hstat
      rw [hev]
      simp [eventForStatus, hstat]
    · intro hstat
      rw [hev]
      simp [eventForStatus, hstat]

/-- Witness for C10 at a concrete not-found lookup. -/
theorem claim_C10_fetchAnalysisEvents_snapshot_witness :
    (FetchAnalysisEvents (.error "cache miss") (.error "analysis not found") (.ok ())).2 = [] :=
  (claim_C10_fetchAnalysisEvents_snapshot (.error "cache miss")
      (.error "analysis not found") (.ok ())).2.1
    "failed to find analysis: analysis not found" rfl

/-- C2: validateURL accepts only non-empty, parseable URLs with an http or
https scheme, a non-empty host, and a host outside the loopback/private
ranges; the listed literal hosts and dotted private ranges are all classified
private; the three private examples fail and the public example succeeds. -/
theorem claim_C2_validateURL_ssrf_boundary :
    (∀ s, validateURL s = .ok () →
      s ≠ "" ∧ ∃ u, urlParse s = .ok u ∧ (u.scheme = "http" ∨ u.scheme = "https") ∧
        u.host ≠ "" ∧ isPrivateOrLocalURL u.host = false) ∧
    (∀ host, (strToLower host = "localhost" ∨ strToLower host = "127.0.0.1" ∨
        strToLower host = "::1" ∨ strToLower host = "0.0.0.0" ∨
        privateRanges.any (fun r => strStartsWith (strToLower host) r) = true) →
      isPrivateOrLocalURL host = true) ∧
    validateURL "http://127.0.0.1/x" = .error "access to private or local networks is not allowed" ∧
    validateURL "http://localhost" = .error "access to private or local networks is not allowed" ∧
    validateURL "http://192.168.1.1" = .error "access to private or local networks is not allowed" ∧
    validateURL "https://example.com" = .ok () := by
  refine ⟨?_, ?_, by rfl, by rfl, by rfl, by rfl⟩
  · intro s h
    unfold validateURL at h
    split at h
    · exact absurd h (by simp)
    · rename_i hs
      refine ⟨hs, ?_⟩
      split at h
      · exact absurd h (by simp)
      · rename_i u hp
        refine ⟨u, hp, ?_⟩
        split_ifs at h with h1 h2 h3 h4
        · refine ⟨?_, h3, by simpa using h4⟩
          rcases not_and_or.mp h2 with hc | hc
          · exact Or.inl (not_not.mp hc)
          · exact Or.inr (not_not.mp hc)
  · intro host hcase
    unfold isPrivateOrLocalURL
    rcases hcase with h | h | h | h | h <;>
      simp [privateHosts, h]

/-- Witness for C2 at a concrete host inside the 10.0.0.0/8 range. -/
theorem claim_C2_validateURL_ssrf_boundary_witness :
    isPrivateOrLocalURL "10.0.7.9" = true :=
  claim_C2_validateURL_ssrf_boundary.2.1 "10.0.7.9"
    (Or.inr (Or.inr (Or.inr (Or.inr (by decide)))))

/-- C6: ExtractHTMLVersion tries the doctype pattern groups in strict
priority order — HTML5 first, then HTML 4.01, then XHTML 1.0, then
XHTML 1.1 — falls back to XHTML 1.0 on a bare XML declaration, and to
Unknown otherwise; the HTML5, XHTML 1.1 and no-doctype examples evaluate
accordingly. -/
theorem claim_C6_extractHTMLVersion_priority :
    (∀ html, regexpMatch html5Toks (strTrim html) = true →
      ExtractHTMLVersion html = .html5) ∧
    (∀ html, regexpMatch html5Toks (strTrim html) = false →
      html401Patterns.any (fun pat => regexpMatch pat (strTrim html)) = true →
      ExtractHTMLVersion html = .html401) ∧
    (∀ html, regexpMatch html5Toks (strTrim html) = false →
      html401Patterns.any (fun pat => regexpMatch pat (strTrim html)) = false →
      xhtml10Patterns.any (fun pat => regexpMatch pat (strTrim html)) = true →
      ExtractHTMLVersion html = .xhtml10) ∧
    (∀ html, regexpMatch html5Toks (strTrim html) = false →
      html401Patterns.any (fun pat => regexpMatch pat (strTrim html)) = false →
      xhtml10Patterns.any (fun pat => regexpMatch pat (strTrim html)) = false →
      regexpMatch xhtml11Toks (strTrim html) = true →
      ExtractHTMLVersion html = .xhtml11) ∧
    (∀ html, regexpMatch html5Toks (strTrim html) = false →
      html401Patterns.any (fun pat => regexpMatch pat (strTrim html)) = false →
      xhtml10Patterns.any (fun pat => regexpMatch pat (strTrim html)) = false →
      regexpMatch xhtml11Toks (strTrim html) = false →
      regexpMatch xmlDeclToks (strTrim html) = true →
      ExtractHTMLVersion html = .xhtml10) ∧
    (∀ html, regexpMatch html5Toks (strTrim html) = false →
      html401Patterns.any (fun pat => regexpMatch pat (strTrim html)) = false →
      xhtml10Patterns.any (fun pat => regexpMatch pat (strTrim html)) = false →
      regexpMatch xhtml11Toks (strTrim html) = false →
      regexpMatch xmlDeclToks (strTrim html) = false →
      ExtractHTMLVersion html = .unknown) ∧
    ExtractHTMLVersion "<!DOCTYPE html><html><body>x</body></html>" = .html5 ∧
    ExtractHTMLVersion
      "<!DOCTYPE html PUBLIC \"-//W3C//DTD XHTML 1.1//EN\" \"http://www.w3.org/TR/xhtml11/DTD/xhtml11.dtd\"><html></html>"
      = .xhtml11 ∧
    ExtractHTMLVersion "<html><head><title>t</title></head></html>" = .unknown := by
  refine ⟨?_, ?_, ?_, ?_, ?_, ?_, by rfl, by rfl, by rfl⟩
  · intro html h1
    simp [ExtractHTMLVersion, h1]
  · intro html h1 h2
    simp [ExtractHTMLVersion, h1, h2]
  · intro html h1 h2 h3
    simp [ExtractHTMLVersion, h1, h2, h3]
  · intro html h1 h2 h3 h4
    simp [ExtractHTMLVersion, h1, h2, h3, h4]
  · intro html h1 h2 h3 h4 h5
    simp [ExtractHTMLVersion, h1, h2, h3, h4, h5]
  · intro html h1 h2 h3 h4 h5
    simp [ExtractHTMLVersion, h1, h2, h3, h4, h5]

/-- Witness for C6 at the HTML5 example document. -/
theorem claim_C6_extractHTMLVersion_priority_witness :
    ExtractHTMLVersion "<!doctype HTML ><p>x</p>" = .html5 :=
  claim_C6_extractHTMLVersion_priority.1 "<!doctype HTML ><p>x</p>" (by rfl)

/-- C8: any form with a password-typed input descendant is flagged as a login
form whatever its field names; the concrete POST form with only a password
field is detected by ExtractForms. -/
theorem claim_C8_password_input_flags_login_form :
    (∀ (fields : List String) (form : Node),
      (∃ n ∈ form.descendants, n.tag = "input" ∧ n.attr "type" = some "password") →
      isLikelyLoginForm fields form = true) ∧
    ExtractForms
      [.elem "form" [("method", "post"), ("action", "/login")]
        [.elem "input" [("type", "password"), ("name", "pw")] []]]
      "https://example.com" =
      ⟨1, 1, [{ method := "POST", action := "https://example.com/login", fields := ["pw"] }]⟩ := by
  constructor
  · intro fields form hex
    have hany : form.descendants.any
        (fun n => n.tag = "input" && n.attr "type" = some "password") = true := by
      rcases hex with ⟨n, hmem, ht, ha⟩
      exact List.any_eq_true.mpr ⟨n, hmem, by simp [ht, ha]⟩
    simp [isLikelyLoginForm, hany]
  · rfl

/-- Witness for C8 at the concrete password-only form node. -/
theorem claim_C8_password_input_flags_login_form_witness :
    isLikelyLoginForm ["pw"]
      (.elem "form" [("method", "post")]
        [.elem "input" [("type", "password"), ("name", "pw")] []]) = true :=
  claim_C8_password_input_flags_login_form.1 ["pw"]
    (.elem "form" [("method", "post")]
      [.elem "input" [("type", "password"), ("name", "pw")] []])
    ⟨.elem "input" [("type", "password"), ("name", "pw")] [], by simp [Node.descendants,
      Node.allNodes, allNodesList], by simp [Node.tag], by simp [Node.attr]⟩

/-- C1: the claim's example document — two identical anchors, a bare
fragment anchor and a javascript anchor — yields no links at all under
ExtractLinks, not the one internal link the claim requires: the source
selects paragraph elements with an href attribute rather than anchors, so
anchor elements are never visited.  The same attributes attached to
paragraph elements produce exactly the deduplicated, classified link the
claim describes, isolating the selector as the defect. -/
theorem claim_C1_extractLinks_selector_defect :
    ExtractLinks
      [.elem "a" [("href", "https://example.com/p")] [],
       .elem "a" [("href", "https://example.com/p")] [],
       .elem "a" [("href", "#x")] [],
       .elem "a" [("href", "javascript:void(0)")] []]
      "https://example.com" = .ok [] ∧
    ExtractLinks
      [.elem "p" [("href", "https://example.com/p")] [],
       .elem "p" [("href", "https://example.com/p")] [],
       .elem "p" [("href", "#x")] [],
       .elem "p" [("href", "javascript:void(0)")] []]
      "https://example.com" =
      .ok [{ url := "https://example.com/p", linkType := .internal }] := by
  exact ⟨rfl, rfl⟩

/-- The set of workers whose probe has completed. -/
def doneSet {n : Nat} (s : CheckerState n) : Finset (Fin n) :=
  Finset.univ.filter (fun i => s.ws i = .done)

/-- Updating a waiting worker to probing grows the probing set by that
worker. -/
theorem probing_filter_update {n : Nat} (s : CheckerState n) (i : Fin n)
    (hw : s.ws i = .waiting) :
    Finset.univ.filter (fun j => Function.update s.ws i WorkerState.probing j = .probing) =
      insert i (Finset.univ.filter (fun j => s.ws j = .probing)) := by
  ext j
  by_cases hj : j = i
  · subst hj
    simp [Function.update_apply]
  · simp [Function.update_apply, hj]

/-- Updating a probing worker to done removes it from the probing set. -/
theorem probing_filter_update_done {n : Nat} (s : CheckerState n) (i : Fin n) :
    Finset.univ.filter (fun j => Function.update s.ws i WorkerState.done j = .probing) =
      (Finset.univ.filter (fun j => s.ws j = .probing)).erase i := by
  ext j
  by_cases hj : j = i
  · subst hj
    simp [Function.update_apply]
  · simp [Function.update_apply, hj]

/-- Updating a non-done worker to probing leaves the done set unchanged. -/
theorem done_filter_update_probing {n : Nat} (s : CheckerState n) (i : Fin n)
    (hw : s.ws i = .waiting) :
    Finset.univ.filter (fun j => Function.update s.ws i WorkerState.probing j = .done) =
      doneSet s := by
  ext j
  by_cases hj : j = i
  · subst hj
    simp [doneSet, Function.update_apply, hw]
  · simp [doneSet, Function.update_apply, hj]

/-- Updating a probing worker to done inserts it into the done set. -/
theorem done_filter_update_done {n : Nat} (s : CheckerState n) (i : Fin n) :
    Finset.univ.filter (fun j => Function.update s.ws i WorkerState.done j = .done) =
      insert i (doneSet s) := by
  ext j
  by_cases hj : j = i
  · subst hj
    simp [doneSet, Function.update_apply]
  · simp [doneSet, Function.update_apply, hj]

/-- The inductive invariant of checkLinksWithConcurrency: in-flight probes
never exceed the slot-pool capacity, the mutex-guarded collection holds
exactly the probe entries of the completed workers, and once the parent has
returned every worker is done. -/
def CheckerInv (cap : Nat) (inputs : Fin n → Option InaccessibleLink)
    (s : CheckerState n) : Prop :=
  inFlight s ≤ cap ∧
  (s.results : Multiset InaccessibleLink) =
    (doneSet s).sum (fun i => ((inputs i).toList : Multiset InaccessibleLink)) ∧
  (s.returned = true → ∀ i, s.ws i = .done)

/-- The invariant holds initially. -/
theorem checkerInv_init (cap : Nat) (inputs : Fin n → Option InaccessibleLink) :
    CheckerInv cap inputs (initState n) := by
  refine ⟨?_, ?_, ?_⟩
  · simp [inFlight, initState]
  · simp [doneSet, initState]
  · intro h
    simp [initState] at h

/-- The invariant is preserved by every step. -/
theorem checkerInv_step {cap : Nat} {inputs : Fin n → Option InaccessibleLink}
    {s t : CheckerState n} (hInv : CheckerInv cap inputs s)
    (hstep : CStep cap inputs s t) : CheckerInv cap inputs t := by
  obtain ⟨hflight, hres, hret⟩ := hInv
  cases hstep with
  | acquire i hw hlt =>
    refine ⟨?_, ?_, ?_⟩
    · unfold inFlight
      dsimp only
      rw [probing_filter_update s i hw,
        Finset.card_insert_of_not_mem (by simp [hw])]
      exact hlt
    · dsimp only [doneSet]
      rw [hres, done_filter_update_probing s i hw]
    · intro h
      exact absurd (hret h i) (by simp [hw])
  | finish i hp =>
    refine ⟨?_, ?_, ?_⟩
    · unfold inFlight
      dsimp only
      rw [probing_filter_update_done s i]
      exact le_trans Finset.card_erase_le hflight
    · dsimp only [doneSet]
      rw [done_filter_update_done s i]
      have hnot : i ∉ doneSet s := by simp [doneSet, hp]
      rw [Finset.sum_insert hnot, ← hres]
      simp [add_comm]
    · intro h
      exact absurd (hret h i) (by simp [hp])
  | ret hall hr =>
    exact ⟨hflight, hres, fun _ => hall⟩

/-- Every reachable state satisfies the invariant. -/
theorem checkerInv_reachable {cap : Nat} {inputs : Fin n → Option InaccessibleLink}
    {s : CheckerState n} (h : CReachable cap inputs s) : CheckerInv cap inputs s := by
  induction h with
  | init => exact checkerInv_init cap inputs
  | step _ hstep ih => exact checkerInv_step ih hstep

/-- C9: in every reachable state of the checkLinksWithConcurrency model, at
most `cap` probes are in flight, and once the call has returned every
spawned probe has completed and the mutex-guarded collection holds exactly
the entries produced by all probes. -/
theorem claim_C9_bounded_concurrency_fan_in {n : Nat} (cap : Nat)
    (inputs : Fin n → Option InaccessibleLink) (s : CheckerState n)
    (h : CReachable cap inputs s) :
    inFlight s ≤ cap ∧
    (s.returned = true →
      (∀ i, s.ws i = .done) ∧
      (s.results : Multiset InaccessibleLink) =
        Finset.univ.sum (fun i => ((inputs i).toList : Multiset InaccessibleLink))) := by
  obtain ⟨hflight, hres, hret⟩ := checkerInv_reachable h
  refine ⟨hflight, fun hr => ⟨hret hr, ?_⟩⟩
  rw [hres]
  congr 1
  have : doneSet s = Finset.univ := by
    ext i
    simp [doneSet, hret hr i]
  rw [this]

/-- Concrete probe outcomes for the C9 witness run: one worker, one 404
entry. -/
def c9WitnessInputs : Fin 1 → Option InaccessibleLink :=
  fun _ => some ⟨"https://example.com/x", 404, "404 Not Found"⟩

/-- C9 witness run, after the single worker acquires its slot. -/
def c9State1 : CheckerState 1 :=
  { initState 1 with ws := Function.update (initState 1).ws 0 .probing }

/-- C9 witness run, after the worker finishes and appends its entry. -/
def c9State2 : CheckerState 1 :=
  CheckerState.mk (Function.update c9State1.ws 0 WorkerState.done)
    (c9State1.results ++ (c9WitnessInputs 0).toList) c9State1.returned

/-- C9 witness run, after the parent's wg.Wait returns. -/
def c9State3 : CheckerState 1 :=
  { c9State2 with returned := true }

/-- Witness for C9 on a concrete one-worker run driven to completion. -/
theorem claim_C9_bounded_concurrency_fan_in_witness :
    inFlight c9State3 ≤ 10 ∧
    (c9State3.returned = true →
      (∀ i, c9State3.ws i = .done) ∧
      (c9State3.results : Multiset InaccessibleLink) =
        Finset.univ.sum (fun i => ((c9WitnessInputs i).toList : Multiset InaccessibleLink))) := by
  refine claim_C9_bounded_concurrency_fan_in 10 c9WitnessInputs c9State3 ?_
  have h1 : CStep 10 c9WitnessInputs (initState 1) c9State1 :=
    CStep.acquire (initState 1) 0 (by decide) (by decide)
  have h2 : CStep 10 c9WitnessInputs c9State1 c9State2 :=
    CStep.finish c9State1 0 (by decide)
  have h3 : CStep 10 c9WitnessInputs c9State2 c9State3 :=
    CStep.ret c9State2 (by decide) (by decide)
  exact CReachable.step (CReachable.step (CReachable.step CReachable.init h1) h2) h3

end WebAnalyzer
